import Mathlib

/-!
Shallow embedding of the survey storage API (`src/models.py`, `src/routers/surveys.py`)
and of the document-store operations it performs, together with theorems checking the
specification's claims against it.

Modelling conventions:
* The document store (MongoDB) is an external collaborator; its collections are modelled
  as Lean lists of typed documents, and `find_one` / `replace_one` / `insert_one` /
  `find`+`sort`+`to_list` are modelled as the corresponding list operations.
* Timestamps (`datetime`) are modelled as integers; `datetime.utcnow()` and
  `uuid.uuid4()` are nondeterministic inputs and are passed to the handlers as
  explicit parameters (`now`, `response_id`).
* `random.randint(1000, 9999)` draws are modelled by an explicit list of pregenerated
  numbers `rng`; each draw `r` yields `1000 + r % 9000`, which ranges over 1000..9999
  exactly as the source's generator does.
* Python exceptions are modelled with `Except`; each route handler's blanket
  `except Exception` clause is modelled by mapping any non-HTTP exception of the body
  to a 500 `serverError`, exactly as FastAPI surfaces the source's `HTTPException`s.
-/

namespace SurveyApi

/-- Timestamps: `datetime` values ordered by time, modelled as integers. -/
abbrev Datetime := Int

/-- Opaque JSON-like payload values (`Any` in the source's type hints).  These are
inert data for every operation the claims mention; numbers are collapsed to `Int`. -/
inductive AnyValue where
  | null
  | boolV (b : Bool)
  | intV (n : Int)
  | strV (s : String)
  | listV (xs : List AnyValue)

/-- `Dict[str, Any]` payloads (respondent metadata, answers, free-form meta). -/
abbrev PyDict := List (String × AnyValue)

/-- `models.QuestionType`. -/
inductive QuestionType where
  | text | textarea | number | select | radio | checkbox | rating | date
deriving DecidableEq

/-- `models.ConditionOperator`. -/
inductive ConditionOperator where
  | equals | notEquals | in_op | notIn | gt | lt | contains | notContains | isTruthy | isFalsy
deriving DecidableEq

/-- `models.Condition`. -/
structure Condition where
  questionId : String
  operator : ConditionOperator
  value : Option AnyValue := none

/-- `models.VisibilityRule`; the source's third clause is the field `none`. -/
structure VisibilityRule where
  all : Option (List Condition) := none
  any : Option (List Condition) := none
  none : Option (List Condition) := none

/-- `models.ValidationRules` (float bounds collapsed to `Int`; inert data). -/
structure ValidationRules where
  required : Option Bool := none
  min : Option Int := none
  max : Option Int := none
  minLength : Option Int := none
  maxLength : Option Int := none
  pattern : Option String := none
  minSelected : Option Int := none
  maxSelected : Option Int := none
  maxStars : Option Int := none

/-- `models.OptionItem`. -/
structure OptionItem where
  value : String
  label : String

/-- `models.Question`. -/
structure Question where
  id : String
  type : QuestionType
  label : String
  description : Option String := none
  placeholder : Option String := none
  defaultValue : Option AnyValue := none
  visibleIf : Option VisibilityRule := none
  validation : Option ValidationRules := none
  options : Option (List OptionItem) := none

/-- `models.Section`. -/
structure Section where
  id : String
  title : Option String := none
  description : Option String := none
  visibleIf : Option VisibilityRule := none
  questions : List Question

/-- `models.SurveyConfig`. -/
structure SurveyConfig where
  title : Option String := none
  description : Option String := none
  meta : Option PyDict := none
  sections : List Section

/-- `models.StoredVersion`. -/
structure StoredVersion where
  version : Int
  versionId : String
  config : SurveyConfig
  prompt : Option String := none
  timestamp : Datetime

/-- `models.StoredSurvey`: one document of the `surveys` collection (the storage-internal
`_id` is stripped by every read path and is not modelled). -/
structure StoredSurvey where
  surveyId : String
  createdAt : Datetime
  versions : List StoredVersion

/-- `models.UserSurveyResponse`: one document of the `responses` collection. -/
structure UserSurveyResponse where
  responseId : String
  surveyId : String
  versionId : String
  respondentInfo : Option PyDict := none
  answers : PyDict
  submittedAt : Datetime
  completionTime : Option Int := none

/-- `models.SubmitSurveyResponseRequest`. -/
structure SubmitSurveyResponseRequest where
  surveyId : String
  versionId : String
  respondentInfo : Option PyDict := none
  answers : PyDict
  completionTime : Option Int := none

/-- `models.SurveyResponsesListResponse`: `success`, `responses` and a required `total`. -/
structure SurveyResponsesListResponse where
  success : Bool
  responses : List UserSurveyResponse
  total : Int

/-- A submitted version timestamp: either an ISO string or an already-structured
`datetime` (the source branches on `isinstance(v["timestamp"], str)`). -/
inductive TsInput where
  | isoStr (s : String)
  | dt (t : Datetime)

/-- One element of the request's untyped `versions` list (`Dict[str, Any]`).
`timestamp := none` models the key being absent, which makes the source's
`v["timestamp"]` access raise `KeyError`.  The `version` and `config` keys are
modelled as present and well-typed: no claim exercises their absence, and the
pydantic validation of `config` (`SurveyConfig(**v["config"])`) is kept typed. -/
structure SubmittedVersion where
  version : Int
  config : SurveyConfig
  prompt : Option String := none
  timestamp : Option TsInput := none

/-- `models.CreateSurveyRequest`. -/
structure CreateSurveyRequest where
  versions : List SubmittedVersion
  surveyId : Option String := none

/-- `models.UpdateSurveyRequest`. -/
structure UpdateSurveyRequest where
  versions : List SubmittedVersion

/-- Python-level exceptions raised inside a handler body and caught by its blanket
`except Exception` clause.  Message texts are modelled (Python's quoting of the
`KeyError` key and pydantic's multi-line report are not reproduced verbatim). -/
inductive PyExn where
  | keyError (key : String)
  | pydanticMissing (model field : String)

/-- Modelled rendering of `str(e)` for the exceptions above. -/
def PyExn.msg : PyExn → String
  | .keyError k => "KeyError: " ++ k
  | .pydanticMissing m f => "validation error for " ++ m ++ ": " ++ f ++ " field required"

/-- The error outcomes a handler can produce, with their HTTP status codes:
`notFound` is the 404 `HTTPException`, `badRequest` the 400 one, and `serverError`
the 500 one raised by each handler's blanket `except Exception` clause. -/
inductive ApiError where
  | notFound (detail : String)
  | badRequest (detail : String)
  | serverError (detail : String)

/-- HTTP status code of each error class. -/
def ApiError.code : ApiError → Nat
  | .notFound _ => 404
  | .badRequest _ => 400
  | .serverError _ => 500

/-- The two collections used by the router, as a store state. -/
structure DB where
  surveys : List StoredSurvey
  responses : List UserSurveyResponse

/-- Model of `collection.find_one({"surveyId": sid})` on the `surveys` collection:
the first document whose `surveyId` equals `sid`. -/
def find_one (docs : List StoredSurvey) (sid : String) : Option StoredSurvey :=
  docs.find? (fun d => d.surveyId == sid)

/-- Model of `collection.replace_one({"surveyId": sid}, doc, upsert=True)`:
replace the first matching document, or insert `doc` when none matches. -/
def replaceOneUpsert : List StoredSurvey → String → StoredSurvey → List StoredSurvey
  | [], _, doc => [doc]
  | d :: ds, sid, doc =>
    if d.surveyId == sid then doc :: ds else d :: replaceOneUpsert ds sid doc

/-- Model of `collection.replace_one({"surveyId": sid}, doc)` without upsert:
replace the first matching document, or do nothing when none matches. -/
def replaceOne : List StoredSurvey → String → StoredSurvey → List StoredSurvey
  | [], _, _ => []
  | d :: ds, sid, doc =>
    if d.surveyId == sid then doc :: ds else d :: replaceOne ds sid doc

/-- `generate_survey_id` applied to one `random.randint(1000, 9999)` draw `r`:
`str(...)` of a number in 1000..9999. -/
def generate_survey_id (r : Nat) : String :=
  toString (1000 + r % 9000)

/-- `generate_version_id` (src/routers/surveys.py:29-31): the f-string
`f"{survey_id}v{version}"`. -/
def generate_version_id (survey_id : String) (version : Int) : String :=
  s!"{survey_id}v{version}"

/-- The `while True` loop of `create_survey` that draws ids until one is not present
in the store.  The source loops on an unbounded random stream; the model consumes the
explicit draw list `rng` and returns `none` when it is exhausted. -/
def pickFreshId (surveys : List StoredSurvey) : List Nat → Option String
  | [] => none
  | r :: rs =>
    let sid := generate_survey_id r
    if (find_one surveys sid).isSome then pickFreshId surveys rs else some sid

/-- Python truthiness of `request.surveyId` in `if not survey_id:`:
`None` and the empty string are falsy, every other string is truthy. -/
def pyFalsyOptStr : Option String → Bool
  | Option.none => true
  | some s => s.isEmpty

/-- Modelled from the spec: the standard-library `datetime.fromisoformat` parser is an
external collaborator (the spec treats timestamp normalization as "ISO-8601 string ...
or an already-structured timestamp"); no claim depends on calendar arithmetic, so the
parse result is modelled as an injective numeric encoding of the input string. -/
def fromisoformat (s : String) : Datetime :=
  (s.toList.foldl (fun a c => a * 1114112 + (c.toNat + 1)) 0 : Nat)

/-- Modelled from the spec: Python `str.replace("Z", "+00:00")` (external stdlib) —
every occurrence of the one-character pattern `"Z"` is replaced. -/
def pyReplaceZ (s : String) : String :=
  ((s.data.map (fun c => if c == 'Z' then ['+', '0', '0', ':', '0', '0'] else [c])).flatten).asString

/-- Timestamp normalization of a submitted version (src/routers/surveys.py:69-71):
a string has every `"Z"` replaced by `"+00:00"` and is parsed; a structured
`datetime` is used as is. -/
def parseTimestamp : TsInput → Datetime
  | .isoStr s => fromisoformat (pyReplaceZ s)
  | .dt t => t

/-- Translation of one submitted version into a `StoredVersion`
(src/routers/surveys.py:64-72): an absent `timestamp` key raises `KeyError`. -/
def translateVersion (survey_id : String) (v : SubmittedVersion) : Except PyExn StoredVersion :=
  match v.timestamp with
  | Option.none => .error (.keyError "timestamp")
  | some ts =>
    .ok { version := v.version
          versionId := generate_version_id survey_id v.version
          config := v.config
          prompt := v.prompt
          timestamp := parseTimestamp ts }

/-- The `for v in request.versions` translation loop: stops at the first exception. -/
def translateAll (survey_id : String) : List SubmittedVersion → Except PyExn (List StoredVersion)
  | [] => .ok []
  | v :: rest =>
    match translateVersion survey_id v with
    | .error e => .error e
    | .ok sv =>
      match translateAll survey_id rest with
      | .error e => .error e
      | .ok svs => .ok (sv :: svs)

/-- Id resolution at the start of `create_survey` (src/routers/surveys.py:47-55):
a falsy `request.surveyId` (absent or empty) triggers the generate-until-fresh loop,
anything else is used as given. -/
def resolveSurveyId (db : DB) (request : CreateSurveyRequest) (rng : List Nat) :
    Option String :=
  if pyFalsyOptStr request.surveyId then pickFreshId db.surveys rng
  else request.surveyId

/-- `create_survey` (POST `/`, src/routers/surveys.py:38-99).  Returns the survey of
the 201 response together with the resulting store; on error the store is the input
store (every exception in the source is raised before `replace_one`).  The source
reads `createdAt` from the pre-existing document before translating; both steps are
pure, so the order is immaterial. -/
def create_survey (db : DB) (request : CreateSurveyRequest) (rng : List Nat)
    (now : Datetime) : Except ApiError StoredSurvey × DB :=
  match resolveSurveyId db request rng with
  | Option.none => (.error (.serverError "Failed to save survey: id generation exhausted"), db)
  | some survey_id =>
    match translateAll survey_id request.versions with
    | .error e => (.error (.serverError ("Failed to save survey: " ++ e.msg)), db)
    | .ok stored_versions =>
      let survey : StoredSurvey :=
        { surveyId := survey_id
          createdAt :=
            match find_one db.surveys survey_id with
            | some existing_survey => existing_survey.createdAt
            | Option.none => now
          versions := stored_versions }
      (.ok survey, { db with surveys := replaceOneUpsert db.surveys survey_id survey })

/-- `update_survey` (PUT `/{survey_id}`, src/routers/surveys.py:101-156). -/
def update_survey (db : DB) (survey_id : String) (request : UpdateSurveyRequest) :
    Except ApiError StoredSurvey × DB :=
  match find_one db.surveys survey_id with
  | Option.none => (.error (.notFound ("Survey " ++ survey_id ++ " not found")), db)
  | some existing_survey =>
    match translateAll survey_id request.versions with
    | .error e => (.error (.serverError ("Failed to update survey: " ++ e.msg)), db)
    | .ok stored_versions =>
      let survey : StoredSurvey :=
        { surveyId := survey_id, createdAt := existing_survey.createdAt
          versions := stored_versions }
      (.ok survey, { db with surveys := replaceOne db.surveys survey_id survey })

/-- `get_survey` (GET `/{survey_id}`, src/routers/surveys.py:158-189). -/
def get_survey (db : DB) (survey_id : String) : Except ApiError StoredSurvey :=
  match find_one db.surveys survey_id with
  | Option.none => .error (.notFound ("Survey " ++ survey_id ++ " not found"))
  | some survey_doc => .ok survey_doc

/-- `get_survey_version` (GET `/{survey_id}/versions/{version}`,
src/routers/surveys.py:191-230): `next((v for v in versions if v["version"] == version), None)`. -/
def get_survey_version (db : DB) (survey_id : String) (version : Int) :
    Except ApiError StoredVersion :=
  match find_one db.surveys survey_id with
  | Option.none => .error (.notFound ("Survey " ++ survey_id ++ " not found"))
  | some survey_doc =>
    match survey_doc.versions.find? (fun v => v.version == version) with
    | Option.none =>
      .error (.notFound ("Version " ++ toString version ++ " not found for survey " ++ survey_id))
    | some version_data => .ok version_data

/-- One regex atom of the store's `$regex` language against one subject character,
under the `"i"` (case-insensitive) option: `.` matches any character, anything else
matches itself up to case. -/
def regexCharMatch (p c : Char) : Bool :=
  p == '.' || p.toLower == c.toLower

/-- Match the whole pattern consecutively at the head of the subject. -/
def regexMatchHere : List Char → List Char → Bool
  | [], _ => true
  | _ :: _, [] => false
  | p :: ps, c :: cs => regexCharMatch p c && regexMatchHere ps cs

/-- Unanchored search: try the pattern at every start position of the subject. -/
def regexMatchFrom (ps : List Char) : List Char → Bool
  | [] => regexMatchHere ps []
  | c :: cs => regexMatchHere ps (c :: cs) || regexMatchFrom ps cs

/-- Modelled from the spec: the document store's
`{"surveyId": {"$regex": query, "$options": "i"}}` filter — an external collaborator
with "standard query and projection semantics" — restricted to the literal-character
and `.`-wildcard fragment of the regex language (unanchored, case-insensitive). -/
def mongoRegexMatchI (pat s : String) : Bool :=
  regexMatchFrom pat.toList s.toList

/-- The store's `.sort("createdAt", -1)` order: `createdAt` descending. -/
def createdAtDesc (a b : StoredSurvey) : Prop :=
  b.createdAt ≤ a.createdAt

instance : DecidableRel createdAtDesc :=
  fun a b => inferInstanceAs (Decidable (b.createdAt ≤ a.createdAt))

instance : IsTotal StoredSurvey createdAtDesc :=
  ⟨fun a b => Int.le_total b.createdAt a.createdAt⟩

instance : IsTrans StoredSurvey createdAtDesc :=
  ⟨fun _ _ _ hab hbc => le_trans hbc hab⟩

/-- `search_surveys` (GET `/search/{query}`, src/routers/surveys.py:261-289):
regex filter, sort by `createdAt` descending, `to_list(length=100)`.  The sort is
realized by a stable insertion sort (the store guarantees only the key order). -/
def search_surveys (db : DB) (query : String) : List StoredSurvey :=
  (List.insertionSort createdAtDesc
    (db.surveys.filter (fun s => mongoRegexMatchI query s.surveyId))).take 100

/-- Spec-side predicate, following the claim's words for `search`: the query fragment
occurs in the surveyId as a case-insensitive literal substring. -/
def specLiteralSubstringCI (frag sid : String) : Bool :=
  decide (List.IsInfix (frag.toList.map Char.toLower) (sid.toList.map Char.toLower))

/-- `submit_survey_response` (POST `/responses/`, src/routers/surveys.py:425-476):
`uuid.uuid4()` and `datetime.utcnow()` are passed in as `response_id` and `now`;
`insert_one` appends to the `responses` collection. -/
def submit_survey_response (db : DB) (request : SubmitSurveyResponseRequest)
    (response_id : String) (now : Datetime) : Except ApiError String × DB :=
  match find_one db.surveys request.surveyId with
  | Option.none => (.error (.notFound ("Survey " ++ request.surveyId ++ " not found")), db)
  | some _ =>
    let response_doc : UserSurveyResponse :=
      { responseId := response_id
        surveyId := request.surveyId
        versionId := request.versionId
        respondentInfo := request.respondentInfo
        answers := request.answers
        submittedAt := now
        completionTime := request.completionTime }
    (.ok response_id, { db with responses := db.responses ++ [response_doc] })

/-- Pydantic keyword construction of `SurveyResponsesListResponse`: each declared
field is either supplied or missing; an extra keyword (the source's `count`) is
ignored (pydantic's default `extra` behavior), and a missing required field raises
a validation error naming it. -/
def SurveyResponsesListResponse.ofKwargs (success : Option Bool)
    (responses : Option (List UserSurveyResponse)) (total : Option Int)
    (count : Option Int) : Except PyExn SurveyResponsesListResponse :=
  match success, responses, total with
  | some s, some rs, some t => .ok { success := s, responses := rs, total := t }
  | Option.none, _, _ => .error (.pydanticMissing "SurveyResponsesListResponse" "success")
  | _, Option.none, _ => .error (.pydanticMissing "SurveyResponsesListResponse" "responses")
  | _, _, Option.none => .error (.pydanticMissing "SurveyResponsesListResponse" "total")

/-- `get_survey_responses` (GET `/responses/{survey_id}`, src/routers/surveys.py:478-508).
The source builds `SurveyResponsesListResponse(success=True, responses=responses,
count=len(responses))`: the required `total` field is not supplied (the extra `count`
keyword does not populate it), so the construction raises and the blanket handler
turns it into a 500. -/
def get_survey_responses (db : DB) (survey_id : String) :
    Except ApiError SurveyResponsesListResponse :=
  let response_docs := db.responses.filter (fun r => r.surveyId == survey_id)
  match SurveyResponsesListResponse.ofKwargs (some true) (some response_docs)
      Option.none (some (response_docs.length : Int)) with
  | .error e => .error (.serverError ("Failed to get survey responses: " ++ e.msg))
  | .ok r => .ok r

/-- One `{survey, responses}` bundle of the analyze-historical result. -/
structure AnalyzedBundle where
  survey : StoredSurvey
  responses : List UserSurveyResponse

/-- The analyze-historical success payload (`data` plus `count`). -/
structure AnalyzeHistoricalOut where
  data : List AnalyzedBundle
  count : Nat

/-- Modelled from the spec: Python `str.strip()` (external stdlib) — leading and
trailing whitespace removed. -/
def pyStrip (s : String) : String :=
  (((s.data.dropWhile Char.isWhitespace).reverse.dropWhile Char.isWhitespace).reverse).asString

/-- Splitting a character list on every comma, keeping empty chunks. -/
def splitCommaChars : List Char → List (List Char)
  | [] => [[]]
  | c :: rest =>
    if c == ',' then [] :: splitCommaChars rest
    else
      match splitCommaChars rest with
      | [] => [[c]]
      | h :: t => (c :: h) :: t

/-- Modelled from the spec: Python `s.split(",")` (external stdlib) — split on every
comma, keeping empty chunks (so `"".split(",") == [""]`). -/
def pySplitComma (s : String) : List String :=
  (splitCommaChars s.data).map List.asString

/-- Id-list parsing of `analyze_historical_surveys` (src/routers/surveys.py:521):
split on `","`, strip whitespace, drop empties. -/
def parse_survey_ids (survey_ids : String) : List String :=
  ((pySplitComma survey_ids).map pyStrip).filter (fun s => !s.isEmpty)

/-- The per-id fetch loop of `analyze_historical_surveys` (src/routers/surveys.py:541-561):
ids with no matching survey are skipped, found ids contribute a bundle in order. -/
def analyzeLoop (db : DB) : List String → List AnalyzedBundle
  | [] => []
  | survey_id :: rest =>
    match find_one db.surveys survey_id with
    | Option.none => analyzeLoop db rest
    | some survey_doc =>
      { survey := survey_doc
        responses := db.responses.filter (fun r => r.surveyId == survey_id) }
        :: analyzeLoop db rest

/-- `analyze_historical_surveys` (POST `/analyze-historical`, src/routers/surveys.py:510-581). -/
def analyze_historical_surveys (db : DB) (survey_ids : String) :
    Except ApiError AnalyzeHistoricalOut :=
  let id_list := parse_survey_ids survey_ids
  if id_list.length == 0 then
    .error (.badRequest "No survey IDs provided")
  else if 5 < id_list.length then
    .error (.badRequest "Maximum 5 surveys allowed for analysis")
  else
    let result := analyzeLoop db id_list
    if result.length == 0 then
      .error (.notFound "None of the provided survey IDs were found")
    else
      .ok { data := result, count := result.length }

/-! Concrete fixtures used by the witness and counterexample theorems below. -/

/-- An empty survey configuration (`config: {sections: []}`). -/
def cfgEmpty : SurveyConfig := { sections := [] }

/-- An empty store. -/
def emptyDB : DB := { surveys := [], responses := [] }

/-- A stored survey whose id contains letters, for exercising the search filter. -/
def abcSurvey : StoredSurvey := { surveyId := "abc", createdAt := 0, versions := [] }

/-- A store holding only `abcSurvey`. -/
def dbRegexCex : DB := { surveys := [abcSurvey], responses := [] }

/-- A submitted version with no `timestamp` key. -/
def missingTsVersion : SubmittedVersion := { version := 1, config := cfgEmpty }

/-- A create request whose only version lacks `timestamp`. -/
def missingTsRequest : CreateSurveyRequest :=
  { versions := [missingTsVersion], surveyId := some "1234" }

/-- A well-formed submitted version (structured timestamp 11). -/
def tsV1 : SubmittedVersion := { version := 1, config := cfgEmpty, timestamp := some (.dt 11) }

/-- A well-formed submitted version (structured timestamp 22). -/
def tsV2 : SubmittedVersion := { version := 2, config := cfgEmpty, timestamp := some (.dt 22) }

/-- The stored translation of `tsV1` under survey id `"4821"`. -/
def storedV1 : StoredVersion :=
  { version := 1, versionId := "4821v1", config := cfgEmpty, timestamp := 11 }

/-- A stored survey `"4821"` created at time 7 with one version. -/
def survey4821 : StoredSurvey := { surveyId := "4821", createdAt := 7, versions := [storedV1] }

/-- A store holding only `survey4821`. -/
def dbWith4821 : DB := { surveys := [survey4821], responses := [] }

/-- A second create request against the already present id `"4821"`. -/
def recreateRequest : CreateSurveyRequest := { versions := [tsV2], surveyId := some "4821" }

/-- A stored survey `"1234"` created later than `survey4821`, for search ordering. -/
def survey1234 : StoredSurvey := { surveyId := "1234", createdAt := 9, versions := [] }

/-- A store holding `survey4821` and `survey1234`. -/
def dbSearch : DB := { surveys := [survey4821, survey1234], responses := [] }

/-- First stored version numbered 1 of the duplicate-version survey. -/
def dupV1a : StoredVersion :=
  { version := 1, versionId := "7777v1", config := cfgEmpty, prompt := some "first", timestamp := 1 }

/-- Second stored version also numbered 1 (duplicates are not deduplicated). -/
def dupV1b : StoredVersion :=
  { version := 1, versionId := "7777v1", config := cfgEmpty, prompt := some "second", timestamp := 2 }

/-- A stored survey with two entries sharing version number 1. -/
def survey7777 : StoredSurvey := { surveyId := "7777", createdAt := 3, versions := [dupV1a, dupV1b] }

/-- A store holding only `survey7777`. -/
def dbDup : DB := { surveys := [survey7777], responses := [] }

/-- Stored survey `"1111"` for the analyze-historical witness. -/
def survey1111 : StoredSurvey := { surveyId := "1111", createdAt := 1, versions := [] }

/-- Stored survey `"2222"` for the analyze-historical witness. -/
def survey2222 : StoredSurvey := { surveyId := "2222", createdAt := 2, versions := [] }

/-- A stored response answering survey `"1111"`. -/
def resp1 : UserSurveyResponse :=
  { responseId := "r1", surveyId := "1111", versionId := "1111v1", answers := [], submittedAt := 4 }

/-- A store holding surveys `"1111"`, `"2222"` and one response for `"1111"`. -/
def dbAnalyze : DB := { surveys := [survey1111, survey2222], responses := [resp1] }

/-- A submit request against the existing survey `"4821"`. -/
def submitReq : SubmitSurveyResponseRequest :=
  { surveyId := "4821", versionId := "4821v1", answers := [("q1", AnyValue.strV "yes")] }

/-- A submit request against the missing survey `"0000"`. -/
def submitReqMissing : SubmitSurveyResponseRequest :=
  { surveyId := "0000", versionId := "0000v1", answers := [] }

/-- A create request carrying the empty string as surveyId. -/
def emptyIdRequest : CreateSurveyRequest := { versions := [tsV1], surveyId := some "" }

/-- The survey that `create_survey emptyDB emptyIdRequest [5] 0` stores: the one rng
draw 5 yields id `"1005"`. -/
def createdSurvey1005 : StoredSurvey :=
  { surveyId := "1005", createdAt := 0
    versions := [{ version := 1, versionId := "1005v1", config := cfgEmpty, timestamp := 11 }] }

/-! Helper lemmas about the store model and the translation loop. -/

theorem find_one_eq_surveyId {docs : List StoredSurvey} {sid : String} {d : StoredSurvey}
    (h : find_one docs sid = some d) : d.surveyId = sid := by
  unfold find_one at h
  have h2 := List.find?_some h
  simpa [beq_iff_eq] using h2

theorem find_one_mem {docs : List StoredSurvey} {sid : String} {d : StoredSurvey}
    (h : find_one docs sid = some d) : d ∈ docs := by
  unfold find_one at h
  exact List.mem_of_find?_eq_some h

theorem find_one_replaceOneUpsert_self (docs : List StoredSurvey) (sid : String)
    (doc : StoredSurvey) (h : doc.surveyId = sid) :
    find_one (replaceOneUpsert docs sid doc) sid = some doc := by
  induction docs with
  | nil => simp [replaceOneUpsert, find_one, List.find?, h]
  | cons a ds ih =>
    by_cases ha : a.surveyId = sid
    · simp [replaceOneUpsert, find_one, List.find?, ha, h]
    · have hb : (a.surveyId == sid) = false := by simp [beq_eq_false_iff_ne, ha]
      simp only [replaceOneUpsert, find_one, List.find?, hb]
      exact ih

theorem mem_replaceOneUpsert {docs : List StoredSurvey} {sid : String}
    {doc d : StoredSurvey} (h : d ∈ replaceOneUpsert docs sid doc) :
    d ∈ docs ∨ d = doc := by
  induction docs with
  | nil =>
    simp [replaceOneUpsert] at h
    exact Or.inr h
  | cons a ds ih =>
    by_cases ha : a.surveyId = sid
    · simp only [replaceOneUpsert, beq_iff_eq, if_pos ha] at h
      rcases List.mem_cons.mp h with h1 | h2
      · exact Or.inr h1
      · exact Or.inl (List.mem_cons_of_mem a h2)
    · simp only [replaceOneUpsert, beq_iff_eq, if_neg ha] at h
      rcases List.mem_cons.mp h with h1 | h2
      · exact Or.inl (h1 ▸ List.mem_cons_self a ds)
      · rcases ih h2 with h3 | h4
        · exact Or.inl (List.mem_cons_of_mem a h3)
        · exact Or.inr h4

theorem mem_replaceOne {docs : List StoredSurvey} {sid : String}
    {doc d : StoredSurvey} (h : d ∈ replaceOne docs sid doc) :
    d ∈ docs ∨ d = doc := by
  induction docs with
  | nil => simp [replaceOne] at h
  | cons a ds ih =>
    by_cases ha : a.surveyId = sid
    · simp only [replaceOne, beq_iff_eq, if_pos ha] at h
      rcases List.mem_cons.mp h with h1 | h2
      · exact Or.inr h1
      · exact Or.inl (List.mem_cons_of_mem a h2)
    · simp only [replaceOne, beq_iff_eq, if_neg ha] at h
      rcases List.mem_cons.mp h with h1 | h2
      · exact Or.inl (h1 ▸ List.mem_cons_self a ds)
      · rcases ih h2 with h3 | h4
        · exact Or.inl (List.mem_cons_of_mem a h3)
        · exact Or.inr h4

theorem translateAll_error_of_missing_ts (sid : String) (l : List SubmittedVersion)
    (v : SubmittedVersion) (hv : v ∈ l) (hts : v.timestamp = Option.none) :
    translateAll sid l = Except.error (.keyError "timestamp") := by
  induction l with
  | nil => cases hv
  | cons w rest ih =>
    cases hw : w.timestamp with
    | none => simp [translateAll, translateVersion, hw]
    | some ts =>
      have hv' : v ∈ rest := by
        cases hv with
        | head => rw [hts] at hw; exact Option.noConfusion hw
        | tail _ h => exact h
      simp [translateAll, translateVersion, hw, ih hv']

theorem pickFreshId_spec (surveys : List StoredSurvey) (rng : List Nat) (sid : String)
    (h : pickFreshId surveys rng = some sid) :
    find_one surveys sid = Option.none ∧ ∃ r, sid = generate_survey_id r := by
  induction rng with
  | nil => cases h
  | cons r rs ih =>
    cases hf : find_one surveys (generate_survey_id r) with
    | some d =>
      rw [pickFreshId, hf] at h
      simp at h
      exact ih h
    | none =>
      rw [pickFreshId, hf] at h
      simp at h
      exact ⟨h ▸ hf, ⟨r, h.symm⟩⟩

theorem generate_survey_id_bounds (r : Nat) :
    ∃ m, 1000 ≤ m ∧ m ≤ 9999 ∧ generate_survey_id r = toString m := by
  refine ⟨1000 + r % 9000, by omega, by omega, rfl⟩

theorem toDigitsCore_length_le (b : Nat) :
    ∀ (fuel n : Nat) (ds : List Char), ds.length ≤ (Nat.toDigitsCore b fuel n ds).length := by
  intro fuel
  induction fuel with
  | zero => intro n ds; simp [Nat.toDigitsCore]
  | succ fuel ih =>
    intro n ds
    simp only [Nat.toDigitsCore]
    by_cases h : n / b = 0
    · simp [h]
    · simp only [if_neg h]
      exact le_trans (Nat.le_succ _)
        (by simpa using ih (n / b) ((n % b).digitChar :: ds))

theorem toDigitsCore_length_lt (b : Nat) (fuel n : Nat) (ds : List Char) :
    ds.length < (Nat.toDigitsCore b (fuel + 1) n ds).length := by
  simp only [Nat.toDigitsCore]
  by_cases h : n / b = 0
  · simp [h]
  · simp only [if_neg h]
    exact lt_of_lt_of_le (Nat.lt_succ_self _)
      (by simpa using toDigitsCore_length_le b fuel (n / b) ((n % b).digitChar :: ds))

theorem natToString_ne_empty (n : Nat) : toString n ≠ "" := by
  intro hEq
  have hEq2 : Nat.repr n = "" := hEq
  have hd : Nat.toDigits 10 n = [] := congrArg String.data hEq2
  have h3 := toDigitsCore_length_lt 10 n n []
  rw [Nat.toDigits] at hd
  rw [hd] at h3
  exact absurd h3 (lt_irrefl 0)

theorem find?_append_first {α : Type} (p : α → Bool) (l1 l2 : List α) (v : α)
    (h1 : ∀ u ∈ l1, p u = false) (hv : p v = true) :
    (l1 ++ v :: l2).find? p = some v := by
  induction l1 with
  | nil => simp [List.find?, hv]
  | cons a l1 ih =>
    have ha := h1 a (List.mem_cons_self a l1)
    simp only [List.cons_append, List.find?, ha]
    exact ih (fun u hu => h1 u (List.mem_cons_of_mem a hu))

theorem analyzeLoop_map_surveyId (db : DB) (ids : List String) :
    (analyzeLoop db ids).map (fun b => b.survey.surveyId) =
      ids.filter (fun i => (find_one db.surveys i).isSome) := by
  induction ids with
  | nil => simp [analyzeLoop]
  | cons i rest ih =>
    cases hf : find_one db.surveys i with
    | none => simp [analyzeLoop, hf, ih, List.filter_cons]
    | some doc =>
      have hs : doc.surveyId = i := find_one_eq_surveyId hf
      simp [analyzeLoop, hf, ih, List.filter_cons, hs]

theorem analyzeLoop_mem (db : DB) (ids : List String) (b : AnalyzedBundle)
    (hb : b ∈ analyzeLoop db ids) :
    find_one db.surveys b.survey.surveyId = some b.survey ∧
    b.responses = db.responses.filter (fun r => r.surveyId == b.survey.surveyId) := by
  induction ids with
  | nil => simp [analyzeLoop] at hb
  | cons i rest ih =>
    cases hf : find_one db.surveys i with
    | none =>
      simp only [analyzeLoop, hf] at hb
      exact ih hb
    | some doc =>
      simp only [analyzeLoop, hf] at hb
      rcases List.mem_cons.mp hb with h1 | h2
      · have hs : doc.surveyId = i := find_one_eq_surveyId hf
        subst h1
        exact ⟨by simpa [hs] using hf, by simp [hs]⟩
      · exact ih h2

theorem create_preserves_nonempty_ids (db : DB) (request : CreateSurveyRequest)
    (rng : List Nat) (now : Datetime) (hdb : ∀ d ∈ db.surveys, d.surveyId ≠ "") :
    ∀ d ∈ (create_survey db request rng now).2.surveys, d.surveyId ≠ "" := by
  cases hres : resolveSurveyId db request rng with
  | none => simpa [create_survey, hres] using hdb
  | some sid =>
    have hsid : sid ≠ "" := by
      unfold resolveSurveyId at hres
      by_cases hf : pyFalsyOptStr request.surveyId = true
      · rw [if_pos hf] at hres
        obtain ⟨-, r, hr⟩ := pickFreshId_spec db.surveys rng sid hres
        obtain ⟨m, -, -, hm⟩ := generate_survey_id_bounds r
        rw [hr, hm]; exact natToString_ne_empty m
      · rw [if_neg hf] at hres
        intro h0
        subst h0
        exact hf (by rw [hres]; rfl)
    cases ht : translateAll sid request.versions with
    | error e => simpa [create_survey, hres, ht] using hdb
    | ok vs =>
      intro d hd
      simp only [create_survey, hres, ht] at hd
      rcases mem_replaceOneUpsert hd with h1 | h2
      · exact hdb d h1
      · rw [h2]; exact hsid

theorem update_preserves_nonempty_ids (db : DB) (sid : String)
    (request : UpdateSurveyRequest) (hdb : ∀ d ∈ db.surveys, d.surveyId ≠ "") :
    ∀ d ∈ (update_survey db sid request).2.surveys, d.surveyId ≠ "" := by
  cases hf : find_one db.surveys sid with
  | none => simpa [update_survey, hf] using hdb
  | some existing =>
    have hsid : sid ≠ "" := by
      have he := find_one_eq_surveyId hf
      exact fun h0 => hdb existing (find_one_mem hf) (he.trans h0)
    cases ht : translateAll sid request.versions with
    | error e => simpa [update_survey, hf, ht] using hdb
    | ok vs =>
      intro d hd
      simp only [update_survey, hf, ht] at hd
      rcases mem_replaceOne hd with h1 | h2
      · exact hdb d h1
      · rw [h2]; exact hsid

/-! Claim theorems. -/

/-- C1: calling `create` again on a surveyId already present in the store replaces the
stored versions sequence wholesale with the translated submitted versions (no merging)
and keeps `createdAt` at the value the first create gave it: the `get` right after the
re-create returns exactly the new version set under the old `createdAt`.  The
hypothesis `sid ≠ ""` formalizes "present in the store": an empty id is treated as
absent by `create` (see C10) and never stored (`create_preserves_nonempty_ids`,
`update_preserves_nonempty_ids`). -/
theorem create_then_create_replaces (db : DB) (request : CreateSurveyRequest)
    (rng : List Nat) (now : Datetime) (sid : String) (doc : StoredSurvey)
    (vs : List StoredVersion)
    (hreq : request.surveyId = some sid) (hne : sid ≠ "")
    (hfound : find_one db.surveys sid = some doc)
    (htr : translateAll sid request.versions = Except.ok vs) :
    (create_survey db request rng now).1 = Except.ok ⟨sid, doc.createdAt, vs⟩ ∧
    get_survey (create_survey db request rng now).2 sid =
      Except.ok ⟨sid, doc.createdAt, vs⟩ := by
  have hEmp : sid.isEmpty = false := by
    cases hb : sid.isEmpty with
    | false => rfl
    | true => exact absurd ((String.isEmpty_iff sid).mp hb) hne
  have hres : resolveSurveyId db request rng = some sid := by
    simp [resolveSurveyId, pyFalsyOptStr, hreq, hEmp]
  constructor
  · simp [create_survey, hres, htr, hfound]
  · simp [create_survey, hres, htr, hfound, get_survey,
      find_one_replaceOneUpsert_self db.surveys sid ⟨sid, doc.createdAt, vs⟩ rfl]

/-- C1 witness: a concrete re-create on the stored id `"4821"` (first created at time
7 with version 1) submitting only version 2 leaves exactly version 2 stored and keeps
`createdAt = 7`. -/
theorem create_then_create_replaces_witness :
    (create_survey dbWith4821 recreateRequest [] 0).1 =
      Except.ok ⟨"4821", 7, [⟨2, "4821v2", cfgEmpty, Option.none, 22⟩]⟩ ∧
    get_survey (create_survey dbWith4821 recreateRequest [] 0).2 "4821" =
      Except.ok ⟨"4821", 7, [⟨2, "4821v2", cfgEmpty, Option.none, 22⟩]⟩ :=
  create_then_create_replaces dbWith4821 recreateRequest [] 0 "4821" survey4821
    [⟨2, "4821v2", cfgEmpty, Option.none, 22⟩] rfl (by decide) rfl rfl

/-- C2: `update` on a surveyId with no stored document fails with the 404 NotFound,
returns the store unchanged, and a subsequent `get` on the same id still fails with
the same 404 NotFound. -/
theorem update_missing_notFound (db : DB) (sid : String) (request : UpdateSurveyRequest)
    (h : find_one db.surveys sid = Option.none) :
    update_survey db sid request =
      (Except.error (.notFound ("Survey " ++ sid ++ " not found")), db) ∧
    get_survey (update_survey db sid request).2 sid =
      Except.error (.notFound ("Survey " ++ sid ++ " not found")) := by
  constructor
  · simp [update_survey, h]
  · simp [update_survey, h, get_survey]

/-- C2 witness: updating the absent id `"9999"` on the empty store. -/
theorem update_missing_notFound_witness :
    update_survey emptyDB "9999" ⟨[]⟩ =
      (Except.error (.notFound ("Survey " ++ "9999" ++ " not found")), emptyDB) ∧
    get_survey (update_survey emptyDB "9999" ⟨[]⟩).2 "9999" =
      Except.error (.notFound ("Survey " ++ "9999" ++ " not found")) :=
  update_missing_notFound emptyDB "9999" ⟨[]⟩ rfl

/-- C3: for every survey identifier string and every integer version number, the
derived version identifier is exactly the concatenation id ++ "v" ++ version; the
function is total, so there are no error conditions. -/
theorem generate_version_id_spec (id : String) (n : Int) :
    generate_version_id id n = id ++ "v" ++ toString n := by
  simp [generate_version_id, toString, String.append_empty]

/-- C4 (amended): `search` returns exactly the stored surveys whose surveyId matches
the query fragment interpreted as a case-insensitive unanchored regular expression
(it is passed to the store's `$regex` operator, so metacharacters are significant),
ordered by `createdAt` descending, capped at 100 results, and the empty list — never
an error — when nothing matches. -/
theorem search_surveys_spec (db : DB) (q : String) :
    List.Pairwise createdAtDesc (search_surveys db q) ∧
    (search_surveys db q).length =
      min 100 (db.surveys.filter (fun s => mongoRegexMatchI q s.surveyId)).length ∧
    ((db.surveys.filter (fun s => mongoRegexMatchI q s.surveyId)).length ≤ 100 →
      (search_surveys db q).Perm
        (db.surveys.filter (fun s => mongoRegexMatchI q s.surveyId))) ∧
    (db.surveys.filter (fun s => mongoRegexMatchI q s.surveyId) = [] →
      search_surveys db q = []) := by
  refine ⟨?_, ?_, ?_, ?_⟩
  · exact List.Pairwise.sublist (List.take_sublist _ _)
      (List.sorted_insertionSort createdAtDesc _)
  · simp [search_surveys, List.length_take]
  · intro h
    rw [search_surveys, List.take_of_length_le (by simpa using h)]
    exact List.perm_insertionSort createdAtDesc _
  · intro h
    simp [search_surveys, h]

/-- C4 counterexample to the claim as stated: the fragment is a regular expression,
not a literal substring — query `"a.c"` matches the stored id `"abc"` although
`"a.c"` is not a case-insensitive literal substring of `"abc"`. -/
theorem search_regex_not_literal_cex :
    search_surveys dbRegexCex "a.c" = [abcSurvey] ∧
    specLiteralSubstringCI "a.c" "abc" = false :=
  ⟨rfl, by decide⟩

/-- C4 witness: a concrete search over two stored surveys — query `"82"` finds
`"4821"` (permutation of the matching set, sorted), query `"zz"` finds nothing. -/
theorem search_surveys_spec_witness :
    (search_surveys dbSearch "82").Perm
      (dbSearch.surveys.filter (fun s => mongoRegexMatchI "82" s.surveyId)) ∧
    List.Pairwise createdAtDesc (search_surveys dbSearch "82") ∧
    search_surveys dbSearch "zz" = [] :=
  ⟨(search_surveys_spec dbSearch "82").2.2.1 (by decide),
   (search_surveys_spec dbSearch "82").1,
   (search_surveys_spec dbSearch "zz").2.2.2 rfl⟩

/-- C5 (code bug): every call of `get_survey_responses` fails with the 500 error: the
handler constructs the response model passing `count`, but the model requires `total`,
so pydantic construction raises and the blanket exception handler returns 500 — the
endpoint can never return the stored responses. -/
theorem get_survey_responses_always_serverError (db : DB) (sid : String) :
    get_survey_responses db sid =
      Except.error (.serverError ("Failed to get survey responses: " ++
        PyExn.msg (.pydanticMissing "SurveyResponsesListResponse" "total"))) := by
  simp [get_survey_responses, SurveyResponsesListResponse.ofKwargs]

/-- C6 counterexample to the claim as stated: a create whose only submitted version
lacks `timestamp` fails with the 500-class error (status code 500, not the 400-class
validation failure the claim names). -/
theorem create_missing_timestamp_cex :
    (create_survey emptyDB missingTsRequest [] 0).1 =
      Except.error (.serverError ("Failed to save survey: " ++
        PyExn.msg (.keyError "timestamp"))) ∧
    ApiError.code (.serverError ("Failed to save survey: " ++
      PyExn.msg (.keyError "timestamp"))) = 500 ∧
    ApiError.code (.serverError ("Failed to save survey: " ++
      PyExn.msg (.keyError "timestamp"))) ≠ 400 :=
  ⟨rfl, rfl, by decide⟩

/-- C6 (amended): a submitted version lacking the `timestamp` field always fails
translation (`KeyError` — the field is required and not defaulted), and `create`
surfaces this as the 500-class StoreError of its blanket exception handler, not as a
400-class ValidationError; no write reaches the store. -/
theorem create_missing_timestamp_spec (db : DB) (request : CreateSurveyRequest)
    (rng : List Nat) (now : Datetime) (v : SubmittedVersion)
    (hv : v ∈ request.versions) (hts : v.timestamp = Option.none) :
    (∀ sid, translateVersion sid v = Except.error (.keyError "timestamp")) ∧
    (∃ msg, (create_survey db request rng now).1 = Except.error (.serverError msg) ∧
      ApiError.code (.serverError msg) = 500) ∧
    (create_survey db request rng now).2 = db := by
  have htr : ∀ sid, translateAll sid request.versions =
      Except.error (.keyError "timestamp") :=
    fun sid => translateAll_error_of_missing_ts sid request.versions v hv hts
  refine ⟨fun sid => by simp [translateVersion, hts], ?_, ?_⟩
  · cases hres : resolveSurveyId db request rng with
    | none =>
      exact ⟨"Failed to save survey: id generation exhausted",
        by simp [create_survey, hres], rfl⟩
    | some sid =>
      exact ⟨"Failed to save survey: " ++ PyExn.msg (.keyError "timestamp"),
        by simp [create_survey, hres, htr sid], rfl⟩
  · cases hres : resolveSurveyId db request rng with
    | none => simp [create_survey, hres]
    | some sid => simp [create_survey, hres, htr sid]

/-- C6 witness: the concrete no-timestamp create of the counterexample, through the
amended theorem. -/
theorem create_missing_timestamp_spec_witness :
    (∃ msg, (create_survey emptyDB missingTsRequest [] 0).1 =
        Except.error (.serverError msg) ∧ ApiError.code (.serverError msg) = 500) ∧
    (create_survey emptyDB missingTsRequest [] 0).2 = emptyDB :=
  ⟨(create_missing_timestamp_spec emptyDB missingTsRequest [] 0 missingTsVersion
      (by simp [missingTsRequest]) rfl).2.1,
   (create_missing_timestamp_spec emptyDB missingTsRequest [] 0 missingTsVersion
      (by simp [missingTsRequest]) rfl).2.2⟩

/-- C7: `getVersion` fails 404 "Survey ... not found" when the survey is absent, fails
404 "Version ... not found for survey ..." when the survey exists but no stored entry
carries the requested version number, and otherwise returns the first entry in stored
order whose `version` equals it (so with duplicate version numbers the
earliest-stored entry wins). -/
theorem get_survey_version_spec (db : DB) (sid : String) (ver : Int) :
    (find_one db.surveys sid = Option.none →
      get_survey_version db sid ver =
        Except.error (.notFound ("Survey " ++ sid ++ " not found"))) ∧
    (∀ doc, find_one db.surveys sid = some doc →
      ((∀ v ∈ doc.versions, v.version ≠ ver) →
        get_survey_version db sid ver =
          Except.error (.notFound
            ("Version " ++ toString ver ++ " not found for survey " ++ sid))) ∧
      (∀ l1 v l2, doc.versions = l1 ++ v :: l2 →
        (∀ u ∈ l1, u.version ≠ ver) → v.version = ver →
        get_survey_version db sid ver = Except.ok v)) := by
  refine ⟨fun h => by simp [get_survey_version, h],
    fun doc hdoc => ⟨fun hall => ?_, fun l1 v l2 hsplit hl1 hv => ?_⟩⟩
  · have hn : doc.versions.find? (fun v => v.version == ver) = Option.none := by
      rw [List.find?_eq_none]
      intro x hx
      simpa [beq_iff_eq] using hall x hx
    simp [get_survey_version, hdoc, hn]
  · have hf : doc.versions.find? (fun u => u.version == ver) = some v := by
      rw [hsplit]
      refine find?_append_first _ l1 l2 v ?_ ?_
      · intro u hu
        simpa [beq_eq_false_iff_ne] using hl1 u hu
      · simpa [beq_iff_eq] using hv
    simp [get_survey_version, hdoc, hf]

/-- C7 witness: survey `"7777"` stores two entries both numbered 1; `getVersion 1`
returns the earliest-stored one, `getVersion 2` gives the version-specific 404, and a
missing survey gives the survey 404. -/
theorem get_survey_version_spec_witness :
    get_survey_version dbDup "7777" 1 = Except.ok dupV1a ∧
    get_survey_version dbDup "7777" 2 =
      Except.error (.notFound
        ("Version " ++ toString (2 : Int) ++ " not found for survey " ++ "7777")) ∧
    get_survey_version dbDup "8888" 1 =
      Except.error (.notFound ("Survey " ++ "8888" ++ " not found")) :=
  ⟨((get_survey_version_spec dbDup "7777" 1).2 survey7777 rfl).2 [] dupV1a [dupV1b]
      rfl (by simp) rfl,
   ((get_survey_version_spec dbDup "7777" 2).2 survey7777 rfl).1 (by decide),
   (get_survey_version_spec dbDup "8888" 1).1 rfl⟩

/-- C8: `analyzeHistorical` parses the comma-separated ids (trim whitespace, drop
empties); an empty list or more than 5 entries is a 400 BadRequest; ids with no
matching survey are silently skipped; it is a 404 NotFound only when no id resolves;
otherwise it returns one `{survey, responses}` bundle per resolved id, in order, with
`count` equal to the number of bundles. -/
theorem analyze_historical_spec (db : DB) (survey_ids : String) :
    (parse_survey_ids survey_ids = [] →
      analyze_historical_surveys db survey_ids =
        Except.error (.badRequest "No survey IDs provided")) ∧
    (5 < (parse_survey_ids survey_ids).length →
      analyze_historical_surveys db survey_ids =
        Except.error (.badRequest "Maximum 5 surveys allowed for analysis")) ∧
    ((parse_survey_ids survey_ids).length ≤ 5 →
      parse_survey_ids survey_ids ≠ [] →
      (parse_survey_ids survey_ids).filter
          (fun i => (find_one db.surveys i).isSome) = [] →
      analyze_historical_surveys db survey_ids =
        Except.error (.notFound "None of the provided survey IDs were found")) ∧
    ((parse_survey_ids survey_ids).length ≤ 5 →
      (parse_survey_ids survey_ids).filter
          (fun i => (find_one db.surveys i).isSome) ≠ [] →
      ∃ out, analyze_historical_surveys db survey_ids = Except.ok out ∧
        out.count = out.data.length ∧
        out.data.map (fun b => b.survey.surveyId) =
          (parse_survey_ids survey_ids).filter
            (fun i => (find_one db.surveys i).isSome) ∧
        ∀ b ∈ out.data,
          find_one db.surveys b.survey.surveyId = some b.survey ∧
          b.responses = db.responses.filter
            (fun r => r.surveyId == b.survey.surveyId)) := by
  refine ⟨fun h => ?_, fun h => ?_, fun h5 hne hres => ?_, fun h5 hres => ?_⟩
  · simp [analyze_historical_surveys, h]
  · have h0 : (parse_survey_ids survey_ids).length ≠ 0 := by omega
    simp [analyze_historical_surveys, h0, h]
  · have hloop : analyzeLoop db (parse_survey_ids survey_ids) = [] := by
      have hm := analyzeLoop_map_surveyId db (parse_survey_ids survey_ids)
      rw [hres] at hm
      exact List.map_eq_nil_iff.mp hm
    have h0 : (parse_survey_ids survey_ids).length ≠ 0 :=
      fun hc => hne (List.length_eq_zero.mp hc)
    have hn5 : ¬ (5 < (parse_survey_ids survey_ids).length) := by omega
    simp [analyze_historical_surveys, h0, hn5, hloop]
  · have h0 : (parse_survey_ids survey_ids).length ≠ 0 := by
      intro hc
      rw [List.length_eq_zero.mp hc] at hres
      exact hres rfl
    have hn5 : ¬ (5 < (parse_survey_ids survey_ids).length) := by omega
    have hmap := analyzeLoop_map_surveyId db (parse_survey_ids survey_ids)
    have hlen : (analyzeLoop db (parse_survey_ids survey_ids)).length ≠ 0 := by
      intro hc
      rw [List.length_eq_zero.mp hc] at hmap
      exact hres (by simpa using hmap.symm)
    refine ⟨{ data := analyzeLoop db (parse_survey_ids survey_ids)
              count := (analyzeLoop db (parse_survey_ids survey_ids)).length },
      ?_, rfl, hmap, fun b hb => analyzeLoop_mem db _ b hb⟩
    simp [analyze_historical_surveys, h0, hn5, hlen]

/-- C8 witness: on a store with surveys `"1111"` and `"2222"`: zero ids → 400, six
ids → 400, only unknown ids → 404, and `" 1111, 2222 ,3333"` → bundles for the two
resolved ids with count 2. -/
theorem analyze_historical_spec_witness :
    analyze_historical_surveys dbAnalyze "" =
      Except.error (.badRequest "No survey IDs provided") ∧
    analyze_historical_surveys dbAnalyze "1,2,3,4,5,6" =
      Except.error (.badRequest "Maximum 5 surveys allowed for analysis") ∧
    analyze_historical_surveys dbAnalyze "8888,9999" =
      Except.error (.notFound "None of the provided survey IDs were found") ∧
    (∃ out, analyze_historical_surveys dbAnalyze " 1111, 2222 ,3333" =
        Except.ok out ∧ out.count = 2) := by
  refine ⟨(analyze_historical_spec dbAnalyze "").1 rfl,
    (analyze_historical_spec dbAnalyze "1,2,3,4,5,6").2.1 (by decide),
    (analyze_historical_spec dbAnalyze "8888,9999").2.2.1 (by decide) (by decide) rfl,
    ?_⟩
  obtain ⟨out, hok, hcnt, hmap, -⟩ :=
    (analyze_historical_spec dbAnalyze " 1111, 2222 ,3333").2.2.2 (by decide) (by decide)
  refine ⟨out, hok, ?_⟩
  have hlen := congrArg List.length hmap
  simp only [List.length_map] at hlen
  rw [hcnt, hlen]
  rfl

/-- C9: submitting a response for a surveyId with no stored survey fails 404 and
leaves the response store unchanged; for an existing survey it appends exactly one
new response document carrying the supplied fresh responseId (insert, never an
update of an existing response). -/
theorem submit_response_spec (db : DB) (request : SubmitSurveyResponseRequest)
    (response_id : String) (now : Datetime) :
    (find_one db.surveys request.surveyId = Option.none →
      submit_survey_response db request response_id now =
        (Except.error (.notFound ("Survey " ++ request.surveyId ++ " not found")), db)) ∧
    ((find_one db.surveys request.surveyId).isSome →
      submit_survey_response db request response_id now =
        (Except.ok response_id,
          { db with responses := db.responses ++
              [{ responseId := response_id
                 surveyId := request.surveyId
                 versionId := request.versionId
                 respondentInfo := request.respondentInfo
                 answers := request.answers
                 submittedAt := now
                 completionTime := request.completionTime }] })) := by
  constructor
  · intro h
    simp [submit_survey_response, h]
  · intro h
    cases hf : find_one db.surveys request.surveyId with
    | none => rw [hf] at h; simp at h
    | some doc => simp [submit_survey_response, hf]

/-- C9 witness: submitting against the missing id `"0000"` fails 404 with the store
unchanged; submitting against the stored id `"4821"` appends exactly one response. -/
theorem submit_response_spec_witness :
    submit_survey_response dbWith4821 submitReqMissing "r-1" 9 =
      (Except.error (.notFound ("Survey " ++ "0000" ++ " not found")), dbWith4821) ∧
    submit_survey_response dbWith4821 submitReq "r-1" 9 =
      (Except.ok "r-1",
        { dbWith4821 with responses := dbWith4821.responses ++
            [{ responseId := "r-1", surveyId := "4821", versionId := "4821v1",
               respondentInfo := Option.none, answers := [("q1", AnyValue.strV "yes")],
               submittedAt := 9, completionTime := Option.none }] }) :=
  ⟨(submit_response_spec dbWith4821 submitReqMissing "r-1" 9).1 rfl,
   (submit_response_spec dbWith4821 submitReq "r-1" 9).2 rfl⟩

/-- C10: a create request whose surveyId is the empty string behaves exactly as if
surveyId were absent (`if not survey_id` is true for both): the same fresh id is
drawn with uniqueness re-checked against the store, and on success the stored
surveyId is a fresh 4-digit numeric string — never the empty string. -/
theorem create_empty_surveyId_spec (db : DB) (request : CreateSurveyRequest)
    (rng : List Nat) (now : Datetime) (h : request.surveyId = some "") :
    create_survey db request rng now =
      create_survey db { versions := request.versions, surveyId := Option.none } rng now ∧
    (∀ survey dbOut, create_survey db request rng now = (Except.ok survey, dbOut) →
      survey.surveyId ≠ "" ∧ find_one db.surveys survey.surveyId = Option.none ∧
      ∃ m, 1000 ≤ m ∧ m ≤ 9999 ∧ survey.surveyId = toString m) := by
  have hfalsy : pyFalsyOptStr (some "") = true := rfl
  have hpick : resolveSurveyId db request rng = pickFreshId db.surveys rng := by
    simp [resolveSurveyId, h, hfalsy]
  constructor
  · have hfalsy2 : pyFalsyOptStr Option.none = true := rfl
    have hres : resolveSurveyId db request rng =
        resolveSurveyId db { versions := request.versions, surveyId := Option.none } rng := by
      simp [resolveSurveyId, h, hfalsy, hfalsy2]
    unfold create_survey
    rw [hres]
  · intro survey dbOut hok
    cases hp : pickFreshId db.surveys rng with
    | none => simp [create_survey, hpick, hp] at hok
    | some sid =>
      cases ht : translateAll sid request.versions with
      | error e => simp [create_survey, hpick, hp, ht] at hok
      | ok vs =>
        simp [create_survey, hpick, hp, ht] at hok
        obtain ⟨hs, -⟩ := hok
        obtain ⟨hfresh, r, hr⟩ := pickFreshId_spec db.surveys rng sid hp
        obtain ⟨m, hm1, hm2, hm3⟩ := generate_survey_id_bounds r
        have hsid : survey.surveyId = sid := by rw [← hs]
        refine ⟨?_, ?_, m, hm1, hm2, ?_⟩
        · rw [hsid, hr, hm3]; exact natToString_ne_empty m
        · rw [hsid]; exact hfresh
        · rw [hsid, hr, hm3]

/-- C10 witness: create on the empty store with surveyId `""` and rng draw 5 equals
the absent-surveyId create and stores the fresh 4-digit id `"1005"`. -/
theorem create_empty_surveyId_spec_witness :
    create_survey emptyDB emptyIdRequest [5] 0 =
      create_survey emptyDB
        { versions := emptyIdRequest.versions, surveyId := Option.none } [5] 0 ∧
    createdSurvey1005.surveyId ≠ "" ∧
    find_one emptyDB.surveys createdSurvey1005.surveyId = Option.none ∧
    (∃ m, 1000 ≤ m ∧ m ≤ 9999 ∧ createdSurvey1005.surveyId = toString m) := by
  have h := create_empty_surveyId_spec emptyDB emptyIdRequest [5] 0 rfl
  have h2 := h.2 createdSurvey1005 { surveys := [createdSurvey1005], responses := [] } rfl
  exact ⟨h.1, h2.1, h2.2.1, h2.2.2⟩

end SurveyApi
